import Mathlib

/-!
Verification development for the flight-globe data pipeline
(`useGlobeData` and its helpers): route keys, the route index,
the year/airport/airline filter pipeline, and the derived
flight statistics.
-/

/-- Lexicographic comparison of character lists by code point, mirroring
the string comparison used by JavaScript's default Array sort. -/
def strLeAux : List Char → List Char → Bool
  | [], _ => true
  | _ :: _, [] => false
  | a :: as, b :: bs =>
    if a.toNat < b.toNat then true
    else if b.toNat < a.toNat then false
    else strLeAux as bs

/-- String less-or-equal by code-point lexicographic order. -/
def strLe (a b : String) : Bool := strLeAux a.data b.data

/-- Route key from the source: the two codes sorted and hyphen-joined.
(`[origin, destination].sort().join('-')` on a two-element array keeps
the order when `origin <= destination` and swaps otherwise.) -/
def getRouteKey (origin destination : String) : String :=
  if strLe origin destination then origin ++ "-" ++ destination
  else destination ++ "-" ++ origin

/-- The per-flight properties read by the statistics pipeline.
Fields the verified claims never read (coordinates, countries,
continents, regions, display names) are omitted; the great-circle
distance computed from the coordinates by `calculateDistance`
(floating-point Haversine) is abstracted as an arbitrary per-flight
rational `dist` parameter below. -/
structure FlightProps where
  origin_code : String
  destination_code : String
  airline : String
  date : String
  deriving DecidableEq, Repr

/-- A visited-airport catalog entry. Only the `code` field is read by the
computations the claims are about; the presentational fields (name,
municipality, elevation, ...) are omitted. -/
structure AirportProps where
  code : String
  deriving DecidableEq, Repr

/-- JavaScript `parseInt(s, 10)`: skip leading whitespace, optional sign,
then the longest digit run; `none` models `NaN` (no digits). Digits after
the run are ignored. -/
def jsParseInt (s : String) : Option Int :=
  let cs := s.data.dropWhile (fun c => c = ' ' ∨ c = '\t' ∨ c = '\n' ∨ c = '\r')
  let core : List Char → Option Nat := fun l =>
    let ds := l.takeWhile Char.isDigit
    if ds.isEmpty then none
    else some (ds.foldl (fun a c => a * 10 + (c.toNat - 48)) 0)
  match cs with
  | '-' :: rest => (core rest).map (fun n => -(n : Int))
  | '+' :: rest => (core rest).map (fun n => (n : Int))
  | _ => (core cs).map (fun n => (n : Int))

/-- Split a character list at every occurrence of `sep`, as JS
`String.split` with a one-character separator does (so an empty input
yields one empty field, and a trailing separator yields a trailing
empty field). -/
def splitCharAux (sep : Char) : List Char → List Char → List (List Char)
  | [], acc => [acc.reverse]
  | c :: cs, acc =>
    if c = sep then acc.reverse :: splitCharAux sep cs []
    else splitCharAux sep cs (c :: acc)

/-- JS `s.split(sep)` for a one-character separator. -/
def splitChar (sep : Char) (s : String) : List String :=
  (splitCharAux sep s.data []).map String.mk

/-- `parseYear` from the source: split the date on `/` and `parseInt` the
third part. A missing third part is `parseInt(undefined) = NaN`, modelled
as `none`. -/
def parseYear (dateStr : String) : Option Int :=
  match (splitChar '/' dateStr).get? 2 with
  | none => none
  | some p => jsParseInt p

/-- Stage 1 of the filter pipeline (`selectedYear === null ? ... : ...`):
a strict null check, then an exact match on the computed year. -/
def yearFiltered (selectedYear : Option Int) (fs : List FlightProps) : List FlightProps :=
  match selectedYear with
  | none => fs
  | some y => fs.filter (fun f => parseYear f.date == some y)

/-- Stage 2 of the filter pipeline (`selectedAirport ? ... : ...`): the
guard is JS truthiness, so both `null` and the empty string skip the
stage; otherwise keep flights whose origin or destination code matches. -/
def airportFiltered (selectedAirport : Option String) (fs : List FlightProps) : List FlightProps :=
  match selectedAirport with
  | none => fs
  | some c =>
    if c = "" then fs
    else fs.filter (fun f => f.origin_code == c || f.destination_code == c)

/-- Stage 3 of the filter pipeline (`selectedAirline ? ... : ...`): the
guard is JS truthiness, so both `null` and the empty string skip the
stage; otherwise keep flights whose airline matches exactly. -/
def airlineFiltered (selectedAirline : Option String) (fs : List FlightProps) : List FlightProps :=
  match selectedAirline with
  | none => fs
  | some a =>
    if a = "" then fs
    else fs.filter (fun f => f.airline == a)

/-- The filter options of `useGlobeData` (colorMode has no effect on the
statistics and is omitted). -/
structure GlobeOptions where
  selectedYear : Option Int := none
  selectedAirport : Option String := none
  selectedAirline : Option String := none
  deriving DecidableEq, Repr

/-- The fully filtered flight subset: year, then airport, then airline,
each stage running on the previous stage's output. -/
def filteredFlights (opts : GlobeOptions) (fs : List FlightProps) : List FlightProps :=
  airlineFiltered opts.selectedAirline
    (airportFiltered opts.selectedAirport
      (yearFiltered opts.selectedYear fs))

/-- One record of the route index (`RouteStats` in the source). -/
structure RouteStats where
  routeKey : String
  origin : String
  destination : String
  count : Nat
  years : List (Option Int)
  dates : List String
  deriving DecidableEq, Repr

/-- The fresh record inserted when a route key is first seen. -/
def routeInit (f : FlightProps) : RouteStats :=
  { routeKey := getRouteKey f.origin_code f.destination_code
    origin := f.origin_code
    destination := f.destination_code
    count := 0
    years := []
    dates := [] }

/-- The per-flight mutation of a route record: bump the count, push the
year if unseen (`Array.includes` uses SameValueZero, so a `NaN` year is
pushed at most once, matching `none` equality here), push the date. -/
def routeUpdate (f : FlightProps) (r : RouteStats) : RouteStats :=
  let y := parseYear f.date
  { r with
    count := r.count + 1
    years := if y ∈ r.years then r.years else r.years ++ [y]
    dates := r.dates ++ [f.date] }

/-- Insert one flight into the route index (a JS `Map`, modelled as an
insertion-ordered association list): update the entry in place when the
key exists, append a fresh updated entry otherwise. -/
def routeIns (k : String) (f : FlightProps) :
    List (String × RouteStats) → List (String × RouteStats)
  | [] => [(k, routeUpdate f (routeInit f))]
  | (k2, r) :: rest =>
    if k2 = k then (k2, routeUpdate f r) :: rest
    else (k2, r) :: routeIns k f rest

/-- The route index built over a flight collection (the `routeStats`
memo when built over all flights, and `filteredRouteStats` when built
over the filtered subset — the same fold either way). -/
def buildRouteStats (fs : List FlightProps) : List (String × RouteStats) :=
  fs.foldl (fun m f => routeIns (getRouteKey f.origin_code f.destination_code) f m) []

/-- Lookup in the route index. -/
def findRoute (k : String) : List (String × RouteStats) → Option RouteStats
  | [] => none
  | (k2, r) :: rest => if k2 = k then some r else findRoute k rest

/-- Sum of all counts in the route index. -/
def routeCountSum (m : List (String × RouteStats)) : Nat :=
  (m.map (fun p => p.2.count)).sum

/-- The count stored at a key, zero when absent. -/
def countAt (k : String) (m : List (String × RouteStats)) : Nat :=
  match findRoute k m with
  | none => 0
  | some r => r.count

/-- The `origin → destination` display string of a flight. -/
def routeStr (f : FlightProps) : String :=
  f.origin_code ++ " → " ++ f.destination_code

/-- A `{route, distance}` extreme-flight record. -/
structure Extreme where
  route : String
  distance : ℚ
  deriving DecidableEq, Repr

/-- The longest-flight tracker of the statistics loop:
`if (!longestFlight || distance > longestFlight.distance) longestFlight = {...}`. -/
def longStep (dist : FlightProps → ℚ) (acc : Option Extreme) (f : FlightProps) : Option Extreme :=
  let d := dist f
  match acc with
  | none => some ⟨routeStr f, d⟩
  | some e => if e.distance < d then some ⟨routeStr f, d⟩ else some e

/-- The shortest-flight tracker of the statistics loop:
`if (distance > 50 && (!shortestFlight || distance < shortestFlight.distance)) ...`
(the 50 km floor excludes likely data errors). -/
def shortStep (dist : FlightProps → ℚ) (acc : Option Extreme) (f : FlightProps) : Option Extreme :=
  let d := dist f
  match acc with
  | none => if 50 < d then some ⟨routeStr f, d⟩ else none
  | some e => if 50 < d ∧ d < e.distance then some ⟨routeStr f, d⟩ else some e

/-- `longestFlight` over the filtered subset. -/
def longestFlightOf (dist : FlightProps → ℚ) (fs : List FlightProps) : Option Extreme :=
  fs.foldl (longStep dist) none

/-- `shortestFlight` over the filtered subset. -/
def shortestFlightOf (dist : FlightProps → ℚ) (fs : List FlightProps) : Option Extreme :=
  fs.foldl (shortStep dist) none

/-- Increment a string-keyed counter record (`rec[k] = (rec[k] || 0) + 1`),
modelled as an insertion-ordered association list. -/
def bump (k : String) : List (String × Nat) → List (String × Nat)
  | [] => [(k, 1)]
  | (k2, n) :: rest =>
    if k2 = k then (k2, n + 1) :: rest
    else (k2, n) :: bump k rest

/-- Lookup in a counter record, with JS `|| 0` defaulting. -/
def lookupCount (k : String) : List (String × Nat) → Nat
  | [] => 0
  | (k2, n) :: rest => if k2 = k then n else lookupCount k rest

/-- `airportVisitCounts`: every flight bumps its origin code then its
destination code. -/
def airportVisitCounts (fs : List FlightProps) : List (String × Nat) :=
  fs.foldl (fun m f => bump f.destination_code (bump f.origin_code m)) []

/-- `airportDepartureCounts`: one bump per flight at the origin code. -/
def airportDepartureCounts (fs : List FlightProps) : List (String × Nat) :=
  fs.foldl (fun m f => bump f.origin_code m) []

/-- `airportArrivalCounts`: one bump per flight at the destination code. -/
def airportArrivalCounts (fs : List FlightProps) : List (String × Nat) :=
  fs.foldl (fun m f => bump f.destination_code m) []

/-- A `busiestAirport` record. -/
structure BusiestAirport where
  code : String
  count : Nat
  departures : Nat
  arrivals : Nat
  deriving DecidableEq, Repr

/-- `busiestAirport`: scan the visit counters keeping the first strict
maximum (`count > busiestAirport.count`). -/
def busiestAirportOf (fs : List FlightProps) : Option BusiestAirport :=
  let dep := airportDepartureCounts fs
  let arr := airportArrivalCounts fs
  (airportVisitCounts fs).foldl
    (fun b p =>
      match b with
      | none => some ⟨p.1, p.2, lookupCount p.1 dep, lookupCount p.1 arr⟩
      | some bb =>
        if bb.count < p.2 then some ⟨p.1, p.2, lookupCount p.1 dep, lookupCount p.1 arr⟩
        else some bb)
    none

/-- The `selectedAirportInfo` sub-record. The fields the claims read;
the presentational fields (name, elevation, first/last visit,
connected airports, top destinations/origins, airlines) are omitted. -/
structure SelectedAirportInfo where
  code : String
  totalVisits : Nat
  arrivals : Nat
  departures : Nat
  deriving DecidableEq, Repr

/-- `selectedAirportInfo` computation: guarded by JS truthiness of
`selectedAirport` and by finding the code in the airport catalog; the
counts are taken over the fully filtered flight subset. -/
def selectedAirportInfoOf (airports : List AirportProps) (selectedAirport : Option String)
    (filtered : List FlightProps) : Option SelectedAirportInfo :=
  match selectedAirport with
  | none => none
  | some c =>
    if c = "" then none
    else
      match airports.find? (fun a => a.code == c) with
      | none => none
      | some ap =>
        some
          { code := ap.code
            totalVisits := filtered.length
            arrivals := (filtered.filter (fun f => f.destination_code == c)).length
            departures := (filtered.filter (fun f => f.origin_code == c)).length }

/-- The fields of `FlightStats` that the verified claims read; the other
(purely presentational or unclaimed) fields are omitted. -/
structure FlightStats where
  totalFlights : Nat
  longestFlight : Option Extreme
  shortestFlight : Option Extreme
  busiestAirport : Option BusiestAirport
  selectedAirportInfo : Option SelectedAirportInfo
  deriving DecidableEq, Repr

/-- The `flightStats` memo: filter, then derive the statistics. The
independent accumulators of the source's single `forEach` loop are the
separate folds above. `dist` abstracts `calculateDistance` applied to
the flight's endpoint coordinates. -/
def flightStats (dist : FlightProps → ℚ) (flights : List FlightProps)
    (airports : List AirportProps) (opts : GlobeOptions) : FlightStats :=
  let filtered := filteredFlights opts flights
  { totalFlights := filtered.length
    longestFlight := longestFlightOf dist filtered
    shortestFlight := shortestFlightOf dist filtered
    busiestAirport := busiestAirportOf filtered
    selectedAirportInfo := selectedAirportInfoOf airports opts.selectedAirport filtered }

/-- The slice of the `useGlobeData` result the claims are about: the
full-collection route index (built from the flight collection only,
before any filtering) and the filtered statistics. -/
structure GlobeData where
  routeStats : List (String × RouteStats)
  flightStats : FlightStats
  deriving DecidableEq, Repr

/-- `useGlobeData` restricted to those two outputs. -/
def useGlobeData (dist : FlightProps → ℚ) (flights : List FlightProps)
    (airports : List AirportProps) (opts : GlobeOptions) : GlobeData :=
  { routeStats := buildRouteStats flights
    flightStats := flightStats dist flights airports opts }

/-- A distance assignment used by concrete evaluations. -/
def dist0 : FlightProps → ℚ := fun _ => 0

/-- A concrete flight used by concrete evaluations. -/
def fX : FlightProps := ⟨"AAA", "BBB", "XX", "1/1/2020"⟩

/-- Two concrete flights over the same unordered route, in both
directions. -/
def fs4 : List FlightProps :=
  [⟨"AAA", "BBB", "XX", "1/2/2010"⟩, ⟨"BBB", "AAA", "YY", "3/4/2010"⟩]

/-- The route record the route index holds for `fs4`. -/
def r4 : RouteStats :=
  ⟨"AAA-BBB", "AAA", "BBB", 2, [some 2010], ["1/2/2010", "3/4/2010"]⟩

/-- The ten-flight dataset of the airport-selection scenario: the code
`JFK` appears in exactly three flights. -/
def jfkFlights : List FlightProps :=
  [⟨"JFK", "LAX", "AA", "6/15/2008"⟩,
   ⟨"SFO", "JFK", "AA", "1/2/2009"⟩,
   ⟨"JFK", "ORD", "UA", "3/4/2010"⟩,
   ⟨"SEA", "PDX", "AS", "5/6/2011"⟩,
   ⟨"ATL", "MIA", "DL", "7/8/2012"⟩,
   ⟨"DEN", "PHX", "WN", "9/10/2013"⟩,
   ⟨"BOS", "DCA", "B6", "11/12/2014"⟩,
   ⟨"IAH", "MSY", "UA", "1/15/2015"⟩,
   ⟨"CLT", "BNA", "AA", "2/20/2016"⟩,
   ⟨"SLC", "LAS", "DL", "3/25/2017"⟩]

/-- A one-entry airport catalog holding `JFK`. -/
def jfkCatalog : List AirportProps := [⟨"JFK"⟩]

/-- The `selectedAirportInfo` record produced for a single
`JFK → LAX` flight with `JFK` selected. -/
def c10info : SelectedAirportInfo := ⟨"JFK", 1, 0, 1⟩

theorem strLeAux_total (as bs : List Char) : strLeAux as bs = true ∨ strLeAux bs as = true := by
  induction as generalizing bs with
  | nil => left; rfl
  | cons a as ih =>
    cases bs with
    | nil => right; rfl
    | cons b bs =>
      rcases Nat.lt_trichotomy a.toNat b.toNat with h | h | h
      · left; simp [strLeAux, h]
      · rcases ih bs with h2 | h2
        · left; simp [strLeAux, h, h2]
        · right; simp [strLeAux, h.symm, h2]
      · right; simp [strLeAux, h]

theorem strLeAux_antisymm (as bs : List Char)
    (h1 : strLeAux as bs = true) (h2 : strLeAux bs as = true) : as = bs := by
  induction as generalizing bs with
  | nil =>
    cases bs with
    | nil => rfl
    | cons b bs => simp [strLeAux] at h2
  | cons a as ih =>
    cases bs with
    | nil => simp [strLeAux] at h1
    | cons b bs =>
      rcases Nat.lt_trichotomy a.toNat b.toNat with h | h | h
      · simp [strLeAux, h, Nat.lt_asymm h, Nat.ne_of_lt h] at h2
      · have hab : a = b := Char.ext (UInt32.ext h)
        subst hab
        simp only [strLeAux, Nat.lt_irrefl, if_neg (Nat.lt_irrefl _)] at h1 h2
        simp [ih bs h1 h2]
      · simp [strLeAux, h, Nat.lt_asymm h, Nat.ne_of_lt h] at h1

theorem str_eq_of_data {s t : String} (h : s.data = t.data) : s = t := by
  cases s; cases t; exact congrArg String.mk h

theorem routeCountSum_routeIns (k : String) (f : FlightProps) (m : List (String × RouteStats)) :
    routeCountSum (routeIns k f m) = routeCountSum m + 1 := by
  induction m with
  | nil => simp [routeIns, routeCountSum, routeUpdate, routeInit]
  | cons p rest ih =>
    obtain ⟨k2, r⟩ := p
    by_cases h : k2 = k
    · simp [routeIns, h, routeCountSum, routeUpdate]
      omega
    · simp only [routeIns, if_neg h, routeCountSum, List.map_cons, List.sum_cons]
      have := ih
      simp only [routeCountSum] at this
      omega

theorem countAt_routeIns (k k2 : String) (f : FlightProps) (m : List (String × RouteStats)) :
    countAt k2 (routeIns k f m) = countAt k2 m + (if k = k2 then 1 else 0) := by
  induction m with
  | nil =>
    by_cases h : k = k2
    · subst h; simp [routeIns, countAt, findRoute, routeUpdate, routeInit]
    · simp [routeIns, countAt, findRoute, h]
  | cons p rest ih =>
    obtain ⟨k3, r⟩ := p
    by_cases h3 : k3 = k
    · subst h3
      by_cases h2 : k3 = k2
      · subst h2
        simp [routeIns, countAt, findRoute, routeUpdate]
      · simp [routeIns, countAt, findRoute, h2, Ne.symm h2]
    · by_cases h2 : k3 = k2
      · subst h2
        have hkk : k ≠ k3 := fun h => h3 h.symm
        simp [routeIns, countAt, findRoute, h3, hkk]
      · simp only [routeIns, if_neg h3, countAt, findRoute, if_neg h2]
        have := ih
        simp only [countAt] at this
        exact this

theorem routeCountSum_build_aux (fs : List FlightProps) (m : List (String × RouteStats)) :
    routeCountSum
      (fs.foldl (fun m f => routeIns (getRouteKey f.origin_code f.destination_code) f m) m) =
    routeCountSum m + fs.length := by
  induction fs generalizing m with
  | nil => simp
  | cons f rest ih =>
    simp only [List.foldl_cons, List.length_cons]
    rw [ih, routeCountSum_routeIns]
    omega

theorem countAt_build_aux (fs : List FlightProps) (m : List (String × RouteStats)) (k : String) :
    countAt k
      (fs.foldl (fun m f => routeIns (getRouteKey f.origin_code f.destination_code) f m) m) =
    countAt k m +
      (fs.filter (fun f => getRouteKey f.origin_code f.destination_code == k)).length := by
  induction fs generalizing m with
  | nil => simp
  | cons f rest ih =>
    simp only [List.foldl_cons, List.filter_cons]
    rw [ih, countAt_routeIns]
    by_cases h : getRouteKey f.origin_code f.destination_code = k
    · simp [h]
      omega
    · simp [h]

/-- C7: for every pair of airport code strings, the route key (the two
codes sorted and hyphen-joined) is independent of flight direction. -/
theorem getRouteKey_symm (a b : String) : getRouteKey a b = getRouteKey b a := by
  unfold getRouteKey
  by_cases h1 : strLe a b
  · by_cases h2 : strLe b a
    · have hab : a = b := str_eq_of_data (strLeAux_antisymm _ _ h1 h2)
      subst hab; rfl
    · simp [h1, h2]
  · by_cases h2 : strLe b a
    · simp [h1, h2]
    · rcases strLeAux_total a.data b.data with h | h
      · exact absurd h h1
      · exact absurd h h2

/-- C4: the counts of the route index built over a flight collection sum
to the collection's size, and each route's count equals the number of
flights whose (direction-independent) route key equals that route's key. -/
theorem route_count_conservation (fs : List FlightProps) :
    routeCountSum (buildRouteStats fs) = fs.length ∧
    ∀ k r, findRoute k (buildRouteStats fs) = some r →
      r.count =
        (fs.filter (fun f => getRouteKey f.origin_code f.destination_code == k)).length := by
  constructor
  · have h := routeCountSum_build_aux fs []
    simpa [buildRouteStats, routeCountSum] using h
  · intro k r hr
    have h := countAt_build_aux fs [] k
    simp only [buildRouteStats] at hr
    rw [show countAt k [] = 0 from rfl] at h
    simp only [countAt, hr, Nat.zero_add] at h
    exact h

/-- C4 witness: on the two-flight collection `fs4` the route record at
key `AAA-BBB` has count 2, the number of flights on that unordered route. -/
theorem route_count_conservation_witness :
    r4.count =
      (fs4.filter (fun f => getRouteKey f.origin_code f.destination_code == "AAA-BBB")).length :=
  (route_count_conservation fs4).2 "AAA-BBB" r4 (by decide)

/-- C8: the full-collection route index of `useGlobeData` is a function
of the flight collection alone; it does not change as the filter options
change. -/
theorem routeStats_filter_invariant (dist : FlightProps → ℚ) (flights : List FlightProps)
    (airports : List AirportProps) (opts1 opts2 : GlobeOptions) :
    (useGlobeData dist flights airports opts1).routeStats =
    (useGlobeData dist flights airports opts2).routeStats := rfl

theorem short_foldl_cases (dist : FlightProps → ℚ) (fs : List FlightProps)
    (acc : Option Extreme) (e : Extreme)
    (h : fs.foldl (shortStep dist) acc = some e) :
    acc = some e ∨ ∃ f ∈ fs, e = ⟨routeStr f, dist f⟩ ∧ 50 < dist f := by
  induction fs generalizing acc with
  | nil => exact Or.inl h
  | cons f rest ih =>
    rcases ih (shortStep dist acc f) h with h2 | h2
    · unfold shortStep at h2
      cases acc with
      | none =>
        by_cases hd : (50 : ℚ) < dist f
        · simp only [if_pos hd, Option.some.injEq] at h2
          exact Or.inr ⟨f, by simp, h2.symm, hd⟩
        · simp [hd] at h2
      | some e0 =>
        by_cases hd : (50 : ℚ) < dist f ∧ dist f < e0.distance
        · simp only [if_pos hd, Option.some.injEq] at h2
          exact Or.inr ⟨f, by simp, h2.symm, hd.1⟩
        · simp only [if_neg hd] at h2
          exact Or.inl h2
    · obtain ⟨g, hg, hge⟩ := h2
      exact Or.inr ⟨g, by simp [hg], hge⟩

theorem short_foldl_small (dist : FlightProps → ℚ) (fs : List FlightProps)
    (acc : Option Extreme) (h : ∀ f ∈ fs, dist f < 50) :
    fs.foldl (shortStep dist) acc = acc := by
  induction fs generalizing acc with
  | nil => rfl
  | cons f rest ih =>
    have hf : dist f < 50 := h f (by simp)
    have hnd : ¬ (50 : ℚ) < dist f := not_lt.mpr (le_of_lt hf)
    have hstep : shortStep dist acc f = acc := by
      unfold shortStep
      cases acc with
      | none => simp [hnd]
      | some e => simp [hnd]
    rw [List.foldl_cons, hstep]
    exact ih acc (fun g hg => h g (by simp [hg]))

/-- C6: the reported `shortestFlight` always has distance above the 50 km
floor and is the distance of a flight of the filtered subset; when every
flight of the filtered subset is below 50 km, `shortestFlight` is null. -/
theorem shortest_flight_floor (dist : FlightProps → ℚ) (flights : List FlightProps)
    (airports : List AirportProps) (opts : GlobeOptions) :
    (∀ e, (flightStats dist flights airports opts).shortestFlight = some e →
        50 < e.distance ∧ ∃ f ∈ filteredFlights opts flights, e.distance = dist f) ∧
    ((∀ f ∈ filteredFlights opts flights, dist f < 50) →
        (flightStats dist flights airports opts).shortestFlight = none) := by
  constructor
  · intro e he
    have h : shortestFlightOf dist (filteredFlights opts flights) = some e := he
    rcases short_foldl_cases dist _ none e h with h2 | h2
    · exact absurd h2 (by simp)
    · obtain ⟨f, hf, he2, hd⟩ := h2
      subst he2
      exact ⟨hd, f, hf, rfl⟩
  · intro hsmall
    show shortestFlightOf dist (filteredFlights opts flights) = none
    exact short_foldl_small dist _ none hsmall

/-- C6 witness: with a single filtered flight of distance 10 km (< 50),
`shortestFlight` is null. -/
theorem shortest_flight_floor_witness :
    (flightStats (fun _ => (10 : ℚ)) [fX] [] {}).shortestFlight = none :=
  (shortest_flight_floor (fun _ => (10 : ℚ)) [fX] [] {}).2 (by decide)

/-- C5: an empty filtered flight subset yields zero `totalFlights`, null
`longestFlight`, `shortestFlight` and `busiestAirport`, and — when no
airport filter is active — null `selectedAirportInfo`; the statistics are
produced by a total function, so no error is possible. -/
theorem stats_empty_graceful (dist : FlightProps → ℚ) (flights : List FlightProps)
    (airports : List AirportProps) (opts : GlobeOptions)
    (hempty : filteredFlights opts flights = []) :
    (flightStats dist flights airports opts).totalFlights = 0 ∧
    (flightStats dist flights airports opts).longestFlight = none ∧
    (flightStats dist flights airports opts).shortestFlight = none ∧
    (flightStats dist flights airports opts).busiestAirport = none ∧
    (opts.selectedAirport = none →
      (flightStats dist flights airports opts).selectedAirportInfo = none) := by
  refine ⟨?_, ?_, ?_, ?_, ?_⟩
  · show (filteredFlights opts flights).length = 0
    rw [hempty]; rfl
  · show longestFlightOf dist (filteredFlights opts flights) = none
    rw [hempty]; rfl
  · show shortestFlightOf dist (filteredFlights opts flights) = none
    rw [hempty]; rfl
  · show busiestAirportOf (filteredFlights opts flights) = none
    rw [hempty]; rfl
  · intro hsel
    show selectedAirportInfoOf airports opts.selectedAirport (filteredFlights opts flights) = none
    rw [hsel]; rfl

/-- C5 witness: the all-null filter setting on the empty collection. -/
theorem stats_empty_graceful_witness :
    (flightStats dist0 [] [] {}).totalFlights = 0 ∧
    (flightStats dist0 [] [] {}).longestFlight = none ∧
    (flightStats dist0 [] [] {}).shortestFlight = none ∧
    (flightStats dist0 [] [] {}).busiestAirport = none ∧
    (({} : GlobeOptions).selectedAirport = none →
      (flightStats dist0 [] [] {}).selectedAirportInfo = none) :=
  stats_empty_graceful dist0 [] [] {} rfl

theorem mem_yearFiltered {y : Option Int} {fs : List FlightProps} {f : FlightProps}
    (h : f ∈ yearFiltered y fs) : f ∈ fs := by
  cases y with
  | none => exact h
  | some y => exact (List.mem_filter.mp h).1

theorem mem_airportFiltered {s : Option String} {fs : List FlightProps} {f : FlightProps}
    (h : f ∈ airportFiltered s fs) : f ∈ fs := by
  cases s with
  | none => exact h
  | some c =>
    by_cases hc : c = ""
    · simpa [airportFiltered, hc] using h
    · have h2 : f ∈ fs ∧ (f.origin_code = c ∨ f.destination_code = c) := by
        simpa [airportFiltered, hc] using h
      exact h2.1

theorem mem_airlineFiltered {a : Option String} {fs : List FlightProps} {f : FlightProps}
    (h : f ∈ airlineFiltered a fs) : f ∈ fs := by
  cases a with
  | none => exact h
  | some s =>
    by_cases hs : s = ""
    · simpa [airlineFiltered, hs] using h
    · have h2 : f ∈ fs ∧ f.airline = s := by
        simpa [airlineFiltered, hs] using h
      exact h2.1

theorem mem_airportFiltered_touches {c : String} {fs : List FlightProps} {f : FlightProps}
    (hc : c ≠ "") (h : f ∈ airportFiltered (some c) fs) :
    f.origin_code = c ∨ f.destination_code = c := by
  have h2 : f ∈ fs ∧ (f.origin_code = c ∨ f.destination_code = c) := by
    simpa [airportFiltered, hc] using h
  exact h2.2

theorem filter_split_length (c : String) (L : List FlightProps)
    (h : ∀ f ∈ L, (f.origin_code = c ∨ f.destination_code = c) ∧
        ¬(f.origin_code = c ∧ f.destination_code = c)) :
    (L.filter (fun f => f.destination_code == c)).length +
      (L.filter (fun f => f.origin_code == c)).length = L.length := by
  induction L with
  | nil => rfl
  | cons f rest ih =>
    have hf := h f (by simp)
    have hr := ih (fun g hg => h g (by simp [hg]))
    rcases hf.1 with h1 | h1
    · have h2 : f.destination_code ≠ c := fun hd => hf.2 ⟨h1, hd⟩
      simp only [List.filter_cons, beq_iff_eq, if_pos h1, if_neg h2, List.length_cons]
      omega
    · by_cases h2 : f.origin_code = c
      · exact absurd ⟨h2, h1⟩ hf.2
      · simp only [List.filter_cons, beq_iff_eq, if_pos h1, if_neg h2, List.length_cons]
        omega

theorem selectedAirportInfoOf_some (airports : List AirportProps) (c : String)
    (filtered : List FlightProps) (ap : AirportProps)
    (hc : c ≠ "") (hap : airports.find? (fun a => a.code == c) = some ap) :
    selectedAirportInfoOf airports (some c) filtered =
      some
        { code := ap.code
          totalVisits := filtered.length
          arrivals := (filtered.filter (fun f => f.destination_code == c)).length
          departures := (filtered.filter (fun f => f.origin_code == c)).length } := by
  simp only [selectedAirportInfoOf]
  rw [if_neg hc, hap]

theorem selectedAirportInfoOf_empty_code (airports : List AirportProps)
    (filtered : List FlightProps) :
    selectedAirportInfoOf airports (some "") filtered = none := rfl

theorem selectedAirportInfoOf_unresolved (airports : List AirportProps) (c : String)
    (filtered : List FlightProps) (hc : c ≠ "")
    (hfind : airports.find? (fun a => a.code == c) = none) :
    selectedAirportInfoOf airports (some c) filtered = none := by
  simp only [selectedAirportInfoOf]
  rw [if_neg hc, hfind]

/-- C10: when every flight has distinct origin and destination codes,
any produced `selectedAirportInfo` splits its visits exactly into
arrivals plus departures. -/
theorem arrivals_departures_split (dist : FlightProps → ℚ) (flights : List FlightProps)
    (airports : List AirportProps) (opts : GlobeOptions)
    (hneq : ∀ f ∈ flights, f.origin_code ≠ f.destination_code) :
    ∀ info, (flightStats dist flights airports opts).selectedAirportInfo = some info →
      info.arrivals + info.departures = info.totalVisits := by
  intro info hinfo
  have hinfo2 :
      selectedAirportInfoOf airports opts.selectedAirport (filteredFlights opts flights) =
        some info := hinfo
  rcases hs : opts.selectedAirport with _ | c
  · rw [hs] at hinfo2
    exact absurd hinfo2 (by simp [selectedAirportInfoOf])
  · rw [hs] at hinfo2
    by_cases hc : c = ""
    · subst hc
      rw [selectedAirportInfoOf_empty_code] at hinfo2
      exact absurd hinfo2 (by simp)
    · rcases hfind : airports.find? (fun a => a.code == c) with _ | ap
      · rw [selectedAirportInfoOf_unresolved airports c _ hc hfind] at hinfo2
        exact absurd hinfo2 (by simp)
      · rw [selectedAirportInfoOf_some airports c _ ap hc hfind] at hinfo2
        have hinfo3 := Option.some.inj hinfo2
        subst hinfo3
        show (List.filter _ _).length + (List.filter _ _).length = _
        apply filter_split_length
        intro f hfmem
        have hmem1 : f ∈ airportFiltered opts.selectedAirport
            (yearFiltered opts.selectedYear flights) := mem_airlineFiltered hfmem
        have hmem2 : f ∈ airportFiltered (some c)
            (yearFiltered opts.selectedYear flights) := by rwa [hs] at hmem1
        have htouch := mem_airportFiltered_touches hc hmem2
        have hfl : f ∈ flights := mem_yearFiltered (mem_airportFiltered hmem2)
        exact ⟨htouch, fun hb => hneq f hfl (hb.1.trans hb.2.symm)⟩

/-- C10 witness: one `JFK → LAX` flight with `JFK` selected yields
`arrivals + departures = totalVisits` (0 + 1 = 1). -/
theorem arrivals_departures_split_witness :
    c10info.arrivals + c10info.departures = c10info.totalVisits :=
  arrivals_departures_split dist0 [⟨"JFK", "LAX", "AA", "6/15/2008"⟩] jfkCatalog
    ⟨none, some "JFK", none⟩ (by decide) c10info (by decide)

/-- C9: selecting an airport of the catalog whose code appears in exactly
k flights, with no year or airline filter, scopes the outer statistics to
those k flights and reports k total visits for the airport. -/
theorem airport_selection_scoping (dist : FlightProps → ℚ) (flights : List FlightProps)
    (airports : List AirportProps) (c : String) (k : Nat)
    (hc : c ≠ "")
    (hres : (airports.find? (fun a => a.code == c)).isSome)
    (hk : (flights.filter (fun f => f.origin_code == c || f.destination_code == c)).length = k) :
    (flightStats dist flights airports ⟨none, some c, none⟩).totalFlights = k ∧
    ∃ info,
      (flightStats dist flights airports ⟨none, some c, none⟩).selectedAirportInfo = some info ∧
      info.totalVisits = k := by
  have hfil : filteredFlights ⟨none, some c, none⟩ flights =
      flights.filter (fun f => f.origin_code == c || f.destination_code == c) := by
    simp [filteredFlights, yearFiltered, airlineFiltered, airportFiltered, hc]
  obtain ⟨ap, hap⟩ := Option.isSome_iff_exists.mp hres
  constructor
  · show (filteredFlights ⟨none, some c, none⟩ flights).length = k
    rw [hfil, hk]
  · refine ⟨{ code := ap.code
              totalVisits := (filteredFlights ⟨none, some c, none⟩ flights).length
              arrivals := ((filteredFlights ⟨none, some c, none⟩ flights).filter
                  (fun f => f.destination_code == c)).length
              departures := ((filteredFlights ⟨none, some c, none⟩ flights).filter
                  (fun f => f.origin_code == c)).length }, ?_, ?_⟩
    · exact selectedAirportInfoOf_some airports c _ ap hc hap
    · show (filteredFlights ⟨none, some c, none⟩ flights).length = k
      rw [hfil, hk]

/-- C9 witness: the ten-flight scenario with `JFK` in three flights gives
`totalFlights = 3` and `selectedAirportInfo.totalVisits = 3`. -/
theorem airport_selection_scoping_witness :
    (flightStats dist0 jfkFlights jfkCatalog ⟨none, some "JFK", none⟩).totalFlights = 3 ∧
    ∃ info,
      (flightStats dist0 jfkFlights jfkCatalog ⟨none, some "JFK", none⟩).selectedAirportInfo =
        some info ∧ info.totalVisits = 3 :=
  airport_selection_scoping dist0 jfkFlights jfkCatalog "JFK" 3
    (by decide) (by decide) (by decide)

theorem mem_airlineFiltered_filter {a : Option String} {p : FlightProps → Bool}
    {Y : List FlightProps} {f : FlightProps}
    (h : f ∈ airlineFiltered a (Y.filter p)) :
    f ∈ airlineFiltered a Y ∧ p f = true := by
  cases a with
  | none =>
    have h2 := List.mem_filter.mp h
    exact ⟨h2.1, h2.2⟩
  | some s =>
    by_cases hs : s = ""
    · simp only [airlineFiltered, if_pos hs] at h ⊢
      have h2 := List.mem_filter.mp h
      exact ⟨h2.1, h2.2⟩
    · simp only [airlineFiltered, if_neg hs] at h ⊢
      have h2 := List.mem_filter.mp h
      have h3 := List.mem_filter.mp h2.1
      exact ⟨List.mem_filter.mpr ⟨h3.1, h2.2⟩, h3.2⟩

/-- C1 counterexample: with the non-null code `JFK` selected and zero
matching flights, `selectedAirportInfo` is null — not present — when the
code is absent from the airport catalog; likewise a selected empty-string
code is falsy and yields null even when catalogued. -/
theorem selected_airport_zero_matches_cex :
    (flightStats dist0 [] [] ⟨none, some "JFK", none⟩).selectedAirportInfo = none ∧
    (flightStats dist0 [] [⟨""⟩] ⟨none, some "", none⟩).selectedAirportInfo = none := by
  exact ⟨rfl, rfl⟩

/-- C1 (amended): when the selected airport code is non-empty, resolves
in the airport catalog, and zero flights of the year/airline-filtered
subset have it as origin or destination, `selectedAirportInfo` is present
with `totalVisits = arrivals = departures = 0`. -/
theorem selected_airport_zero_matches (dist : FlightProps → ℚ) (flights : List FlightProps)
    (airports : List AirportProps) (opts : GlobeOptions) (c : String)
    (hsel : opts.selectedAirport = some c) (hc : c ≠ "")
    (hres : (airports.find? (fun a => a.code == c)).isSome)
    (hzero : ∀ f ∈ airlineFiltered opts.selectedAirline (yearFiltered opts.selectedYear flights),
        f.origin_code ≠ c ∧ f.destination_code ≠ c) :
    ∃ info, (flightStats dist flights airports opts).selectedAirportInfo = some info ∧
      info.totalVisits = 0 ∧ info.arrivals = 0 ∧ info.departures = 0 := by
  obtain ⟨ap, hap⟩ := Option.isSome_iff_exists.mp hres
  have hempty : filteredFlights opts flights = [] := by
    rw [List.eq_nil_iff_forall_not_mem]
    intro f hf
    unfold filteredFlights at hf
    rw [hsel] at hf
    rw [show airportFiltered (some c) (yearFiltered opts.selectedYear flights) =
        (yearFiltered opts.selectedYear flights).filter
          (fun f => f.origin_code == c || f.destination_code == c) from by
      simp [airportFiltered, hc]] at hf
    obtain ⟨hmem, hpred⟩ := mem_airlineFiltered_filter hf
    have hz : f.origin_code ≠ c ∧ f.destination_code ≠ c := hzero f hmem
    simp only [Bool.or_eq_true, beq_iff_eq] at hpred
    rcases hpred with h | h
    · exact hz.1 h
    · exact hz.2 h
  have hmain : (flightStats dist flights airports opts).selectedAirportInfo =
      selectedAirportInfoOf airports opts.selectedAirport (filteredFlights opts flights) := rfl
  rw [hmain, hsel, hempty, selectedAirportInfoOf_some airports c [] ap hc hap]
  exact ⟨_, rfl, rfl, rfl, rfl⟩

/-- C1 witness: `JFK` is catalogued, the single flight `AAA → BBB` never
touches it, and the produced `selectedAirportInfo` is present with all
counts zero. -/
theorem selected_airport_zero_matches_witness :
    ∃ info,
      (flightStats dist0 [fX] jfkCatalog ⟨none, some "JFK", none⟩).selectedAirportInfo =
        some info ∧ info.totalVisits = 0 ∧ info.arrivals = 0 ∧ info.departures = 0 :=
  selected_airport_zero_matches dist0 [fX] jfkCatalog ⟨none, some "JFK", none⟩ "JFK"
    rfl (by decide) (by decide) (by decide)

/-- C2 counterexample: an airport filter on a catalogued code over an
empty flight collection gives an empty filtered subset, yet
`selectedAirportInfo` is present (with zero counts), not null. -/
theorem empty_filtered_airport_info_cex :
    filteredFlights ⟨none, some "JFK", none⟩ [] = [] ∧
    (flightStats dist0 [] jfkCatalog ⟨none, some "JFK", none⟩).selectedAirportInfo ≠ none := by
  decide

/-- C2 (amended): with an empty filtered flight subset,
`selectedAirportInfo` is null exactly in the cases where the airport
filter stage or the catalog lookup bails out: no airport filter active,
an empty-string (falsy) code, or a code absent from the catalog. A
catalogued non-empty code instead yields a present record with zero
counts. -/
theorem empty_filtered_airport_info_null (dist : FlightProps → ℚ) (flights : List FlightProps)
    (airports : List AirportProps) (opts : GlobeOptions)
    (_hempty : filteredFlights opts flights = [])
    (h : opts.selectedAirport = none ∨ ∃ c, opts.selectedAirport = some c ∧
        (c = "" ∨ airports.find? (fun a => a.code == c) = none)) :
    (flightStats dist flights airports opts).selectedAirportInfo = none := by
  have hmain : (flightStats dist flights airports opts).selectedAirportInfo =
      selectedAirportInfoOf airports opts.selectedAirport (filteredFlights opts flights) := rfl
  rw [hmain]
  rcases h with h | ⟨c, hs, h⟩
  · rw [h]; rfl
  · rw [hs]
    by_cases hc : c = ""
    · subst hc
      exact selectedAirportInfoOf_empty_code airports _
    · rcases h with h | h
      · exact absurd h hc
      · exact selectedAirportInfoOf_unresolved airports c _ hc h

/-- C2 witness: the all-null filter options over the empty collection. -/
theorem empty_filtered_airport_info_null_witness :
    (flightStats dist0 [] [] {}).selectedAirportInfo = none :=
  empty_filtered_airport_info_null dist0 [] [] {} rfl (Or.inl rfl)

/-- C3 counterexample: with the empty string as the active airline
filter, the airline stage keeps a flight whose airline is `XX` — it is
not the exact-match-on-empty-string filter the claim describes, whose
result here would be empty. -/
theorem airline_empty_string_cex :
    airlineFiltered (some "") [fX] = [fX] ∧
    [fX].filter (fun f => f.airline == "") = [] ∧
    fX.airline ≠ "" := by
  decide

/-- C3 (amended): the airline stage's guard is JS truthiness, and the
empty string is falsy, so an empty-string airline filter makes the stage
a no-op: the subset after the airline stage equals the previous stage's
output unchanged. -/
theorem airline_empty_string_noop (fs : List FlightProps) :
    airlineFiltered (some "") fs = fs := rfl
